import Mathlib

/-!
Shallow embedding of the SLSTK3400A-ADXL362 firmware core (main.c).

The embedding represents each initialization routine as the list of
hardware-configuration calls it performs, in source order, and the main
loop as a trace-producing function parameterized by an interrupt oracle.
Claims about ordering, counts and flag evolution are proved over these
traces.
-/

namespace ADXL

/-! ## Pin mapping (documented in the main.c header comment: PB0 = PC09,
PB1 = PC10, ADXL_INT1 = PD07; EFM32 ports are numbered A = 0, B = 1,
C = 2, D = 3). -/

def PB0_PORT : Nat := 2
def PB0_PIN : Nat := 9
def PB1_PORT : Nat := 2
def PB1_PIN : Nat := 10
def ADXL_INT1_PORT : Nat := 3
def ADXL_INT1_PIN : Nat := 7

/-- Modelled from the spec: the ADXL362 status-register address constant
ADXL_REG_STATUS is defined in accel.h, which is not part of the visible
source; only its role (the register read by the acknowledge path) matters
for the claims, not its numeric value. -/
def ADXL_REG_STATUS : Nat := 11

/-! ## GPIO wakeup initialization (main.c, initGPIOwakeup, lines 62-86) -/

/-- Pin input modes used by initGPIOwakeup: gpioModeInput (no glitch
filter) and gpioModeInputPullFilter (pull resistor plus glitch filter). -/
inductive GpioMode
  | input
  | inputPullFilter
  deriving DecidableEq, Repr

/-- One hardware-configuration call made during GPIO wakeup
initialization. intConfig carries the risingEdge, fallingEdge and enable
arguments of GPIO_IntConfig in source order. -/
inductive GpioInitAct
  | clockEnableGPIO
  | pinModeSet (port pin : Nat) (mode : GpioMode) (out : Nat)
  | nvicEnableEven
  | nvicEnableOdd
  | intConfig (port pin : Nat) (risingEdge fallingEdge enable : Bool)
  deriving DecidableEq, Repr

/-- The sequence of configuration calls performed by initGPIOwakeup
(main.c lines 62-86), in source order. -/
def initGPIOwakeup : List GpioInitAct :=
  [GpioInitAct.clockEnableGPIO,
   GpioInitAct.pinModeSet PB0_PORT PB0_PIN GpioMode.inputPullFilter 1,
   GpioInitAct.pinModeSet PB1_PORT PB1_PIN GpioMode.inputPullFilter 1,
   GpioInitAct.pinModeSet ADXL_INT1_PORT ADXL_INT1_PIN GpioMode.input 1,
   GpioInitAct.nvicEnableEven,
   GpioInitAct.nvicEnableOdd,
   GpioInitAct.intConfig PB0_PORT PB0_PIN false true true,
   GpioInitAct.intConfig PB1_PORT PB1_PIN false true true,
   GpioInitAct.intConfig ADXL_INT1_PORT ADXL_INT1_PIN true false true]

/-- The pin mode a call sequence leaves configured on a given pin (the
last pinModeSet for that pin), or none if the pin is never configured. -/
def pinModeAfter (l : List GpioInitAct) (port pin : Nat) : Option GpioMode :=
  l.foldl (fun acc a =>
    match a with
    | GpioInitAct.pinModeSet p q m _ => if p = port ∧ q = pin then some m else acc
    | _ => acc) none

/-- The edge-interrupt configuration a call sequence leaves on a given pin
as (risingEdge, fallingEdge, enable), or none if never configured. -/
def intConfigAfter (l : List GpioInitAct) (port pin : Nat) :
    Option (Bool × Bool × Bool) :=
  l.foldl (fun acc a =>
    match a with
    | GpioInitAct.intConfig p q r f e =>
        if p = port ∧ q = pin then some (r, f, e) else acc
    | _ => acc) none

/-! ## RTC compare initialization (main.c, initRTCcomp, lines 92-119) -/

/-- One hardware-configuration call made during RTC initialization.
rtcInitStart is the final RTC_Init call, which initializes and starts the
counter (RTC_INIT_DEFAULT enables the counter). -/
inductive RtcAct
  | oscEnableLFXO
  | clockEnableHFLE
  | clockSelectLFAtoLFXO
  | clockEnableRTC
  | compareSet (channel : Nat) (value : Nat)
  | intEnableCOMP0
  | nvicClearPendingRTC
  | nvicEnableRTC
  | rtcInitStart
  deriving DecidableEq, Repr

/-- The sequence of calls performed by initRTCcomp (main.c lines 92-119),
in source order. The compare value written is COMPARE_RTC =
DELAY_RTC * LFXOFREQ = 60.0 * 32768 converted to the unsigned register
argument; its exact value is settled separately (see COMPARE_RTC below). -/
def initRTCcomp : List RtcAct :=
  [RtcAct.oscEnableLFXO,
   RtcAct.clockEnableHFLE,
   RtcAct.clockSelectLFAtoLFXO,
   RtcAct.clockEnableRTC,
   RtcAct.compareSet 0 1966080,
   RtcAct.intEnableCOMP0,
   RtcAct.nvicClearPendingRTC,
   RtcAct.nvicEnableRTC,
   RtcAct.rtcInitStart]

/-! ## The RTC compare constant (main.c lines 48-51) -/

/-- DELAY_RTC from main.c: 60.0 seconds. The C source writes the double
literal 60.0; the constant is modelled exactly over the rationals, and
rounding is accounted for through Float64Representable below. -/
def DELAY_RTC : ℚ := 60

/-- LFXOFREQ from main.c: the 32768 Hz low-frequency crystal frequency. -/
def LFXOFREQ : ℚ := 32768

/-- COMPARE_RTC from main.c: the constant expression
DELAY_RTC * LFXOFREQ evaluated in double precision. Modelled as the exact
rational product; exactness of the double computation is established via
Float64Representable. -/
def COMPARE_RTC : ℚ := DELAY_RTC * LFXOFREQ

/-- A rational is exactly representable as an IEEE-754 binary64 value when
it is a dyadic rational whose significand fits in 53 bits (ignoring the
exponent range, which is far from binding here). Any correct rounding
function is the identity on such values. -/
def Float64Representable (q : ℚ) : Prop :=
  ∃ m e : ℤ, m.natAbs ≤ 2 ^ 53 - 1 ∧ q = (m : ℚ) * (2 : ℚ) ^ e

/-! ## Boot sequence (main.c, main, lines 126-188) -/

/-- One step of the boot sequence in main (after the SysTick check),
in source order. Sensor register operations are resetHandlerADXL, the
three configADXL writes, and measureADXL. -/
inductive BootAct
  | chipInit
  | sysTickConfig
  | rtcCompInit
  | gpioWakeupInit
  | dbprintInit
  | adxlVccInit
  | adxlSpiInit
  | ledsInit
  | resetHandlerADXL
  | configADXL_range (value : Nat)
  | configADXL_ODR (value : Nat)
  | configADXL_activity (value : Nat)
  | measureADXL (enable : Bool)
  | dbprintEmptyLine
  deriving DecidableEq, Repr

/-- The boot sequence executed by main before the while(1) loop (main.c
lines 126-188), in source order, parameterized by whether the DEBUGGING
macro is defined (debugging.h line 19 defines it; undefining it removes
the dbprint calls and nothing else). -/
def bootTrace (dbg : Bool) : List BootAct :=
  [BootAct.chipInit, BootAct.sysTickConfig, BootAct.rtcCompInit,
   BootAct.gpioWakeupInit] ++
  (if dbg then [BootAct.dbprintInit] else []) ++
  [BootAct.adxlVccInit, BootAct.adxlSpiInit, BootAct.ledsInit,
   BootAct.resetHandlerADXL,
   BootAct.configADXL_range 1, BootAct.configADXL_ODR 0,
   BootAct.configADXL_activity 3,
   BootAct.measureADXL true] ++
  (if dbg then [BootAct.dbprintEmptyLine] else [])

/-- Whether a boot step is a sensor register operation (an access to the
ADXL362 over the bus that reads or writes device registers). -/
def isSensorRegOp : BootAct → Bool
  | BootAct.resetHandlerADXL => true
  | BootAct.configADXL_range _ => true
  | BootAct.configADXL_ODR _ => true
  | BootAct.configADXL_activity _ => true
  | BootAct.measureADXL _ => true
  | _ => false

/-- Whether a boot step is one of the debug-print calls guarded by the
DEBUGGING conditional-compilation flag. -/
def isDebugBoot : BootAct → Bool
  | BootAct.dbprintInit => true
  | BootAct.dbprintEmptyLine => true
  | _ => false

/-- Checks, tracking the measurement-enable state of the device along a
boot trace (soft reset forces it off; measureADXL sets it), that every
configuration write happens while measurement is disabled. -/
def standbyOk : Bool → List BootAct → Bool
  | _, [] => true
  | _, BootAct.resetHandlerADXL :: rest => standbyOk false rest
  | m, BootAct.configADXL_range _ :: rest => !m && standbyOk m rest
  | m, BootAct.configADXL_ODR _ :: rest => !m && standbyOk m rest
  | m, BootAct.configADXL_activity _ :: rest => !m && standbyOk m rest
  | _, BootAct.measureADXL b :: rest => standbyOk b rest
  | m, _ :: rest => standbyOk m rest

/-! ## The main loop (main.c, main, lines 190-215)

The loop body runs with interrupts enabled: a handler can preempt the
foreground code at any instruction boundary. Modelled from the spec: the
handlers themselves live in handlers.c, which is not part of the visible
source; per the spec they only set the shared Event Flag (the C variable
`triggered`) and return immediately. An interrupt oracle o : Nat → Bool
says whether a handler runs (and thus sets the flag) at boundary i of the
current pass; since handlers only ever set the flag, several handlers at
one boundary are equivalent to one. -/

/-- One statement executed inside the while(1) loop of main. checkFlag
records the `if (triggered)` test together with the value it read;
clearTriggered is the `triggered = false;` assignment. -/
inductive LoopAct
  | led0 (enable : Bool)
  | delayMs (ms : Nat)
  | checkFlag (value : Bool)
  | readADXL (reg : Nat)
  | clearTriggered
  | dbinfoSleep
  | systickInterrupts (enable : Bool)
  | enableSPIpinsADXL (enable : Bool)
  | emuEnterEM2
  deriving DecidableEq, Repr

/-- Whether a loop statement is a sensor-bus register access. -/
def isReadADXL : LoopAct → Bool
  | LoopAct.readADXL _ => true
  | _ => false

/-- Whether a loop statement is the debug print guarded by the DEBUGGING
conditional-compilation flag (main.c lines 204-206). -/
def isDebugAct : LoopAct → Bool
  | LoopAct.dbinfoSleep => true
  | _ => false

/-- Result of one pass of the loop body up to and including the
EMU_EnterEM2 call: the statements executed, the flag value read by the
`if (triggered)` test, and the flag value at the moment EMU_EnterEM2
executes. -/
structure IterOut where
  trace : List LoopAct
  flagAtCheck : Bool
  flagAtEM2 : Bool
  deriving DecidableEq, Repr

/-- One pass of the main loop body (main.c lines 192-211), from the top
of the loop up to and including the EMU_EnterEM2 call, under interrupt
oracle o and with flag value t0 at loop entry. Boundaries 0-3 precede the
`if (triggered)` test; since handlers only set the flag, their effect up
to the test is the disjunction t0 || o 0 || o 1 || o 2 || o 3. In the
taken branch, boundary 4 lies between the test and the readADXL (the flag
is already set, so it has no effect), boundary 5 between the read and the
`triggered = false;` assignment (a set there is overwritten by the
clear, the lost-event race the spec accepts), and boundaries 6-9 follow
the clear, before dbinfo, systickInterrupts(false),
enableSPIpinsADXL(false) and EMU_EnterEM2 respectively. In the untaken
branch, boundaries 4-6 precede those last three calls. -/
def activePhase (dbg : Bool) (o : Nat → Bool) (t0 : Bool) : IterOut :=
  let tChk := t0 || o 0 || o 1 || o 2 || o 3
  let head : List LoopAct :=
    [LoopAct.led0 true, LoopAct.delayMs 1000, LoopAct.led0 false,
     LoopAct.checkFlag tChk]
  let tail : List LoopAct :=
    (if dbg then [LoopAct.dbinfoSleep] else []) ++
    [LoopAct.systickInterrupts false, LoopAct.enableSPIpinsADXL false,
     LoopAct.emuEnterEM2]
  if tChk then
    { trace := head ++ [LoopAct.readADXL ADXL_REG_STATUS,
                        LoopAct.clearTriggered] ++ tail,
      flagAtCheck := tChk,
      flagAtEM2 := o 6 || o 7 || o 8 || o 9 }
  else
    { trace := head ++ tail,
      flagAtCheck := tChk,
      flagAtEM2 := o 4 || o 5 || o 6 }

/-- The two calls executed after EMU_EnterEM2 returns, before the loop
re-enters at the top (main.c lines 213-214). -/
def wakeTrace : List LoopAct :=
  [LoopAct.enableSPIpinsADXL true, LoopAct.systickInterrupts true]

/-- One full loop iteration: active pass, blocking deep sleep, wake
re-enable; returns the statements executed and the flag value at the next
loop entry. Execution proceeds past EMU_EnterEM2 only once an unmasked
interrupt has fired, and (Modelled from the spec: handlers.c is outside
the visible source) its handler sets the Event Flag before returning, so
the flag at the next loop entry is true. -/
def loopIter (dbg : Bool) (o : Nat → Bool) (t0 : Bool) : List LoopAct × Bool :=
  ((activePhase dbg o t0).trace ++ wakeTrace, true)

/-- The statements executed by n iterations of the main loop, with one
interrupt oracle per iteration (O i is the oracle of iteration i) and
flag value t at entry to the first iteration. -/
def runLoop (dbg : Bool) (O : Nat → Nat → Bool) : Bool → Nat → List LoopAct
  | _, 0 => []
  | t, n + 1 =>
      (loopIter dbg (O 0) t).1 ++
      runLoop dbg (fun k => O (k + 1)) (loopIter dbg (O 0) t).2 n

/-- Checks along a trace, starting from SPI-pin state s (true means the
pins are enabled, as left by initADXL_SPI at boot or by
enableSPIpinsADXL(true)), that every readADXL happens while the pins are
enabled. -/
def spiOkFrom (s : Bool) : List LoopAct → Bool
  | [] => true
  | LoopAct.readADXL _ :: rest => s && spiOkFrom s rest
  | LoopAct.enableSPIpinsADXL b :: rest => spiOkFrom b rest
  | _ :: rest => spiOkFrom s rest

/-! ## The SysTick failure halt (main.c line 134) -/

/-- Control point of main around the SysTick_Config call: start is just
before the call, halted is the while(1) busy-wait entered when the call
returns nonzero, running is the rest of initialization and the main
loop. -/
inductive BootPhase
  | start
  | halted
  | running
  deriving DecidableEq, Repr

/-- One step of the boot control flow at main.c line 134:
`if (SysTick_Config(...)) while (1);`. SysTick_Config returns nonzero on
failure, in which case the program spins in the busy-wait forever; on
zero it proceeds. halted and running only step to themselves. -/
def bootStep (sysTickRet : Nat) : BootPhase → BootPhase
  | BootPhase.start =>
      if sysTickRet = 0 then BootPhase.running else BootPhase.halted
  | BootPhase.halted => BootPhase.halted
  | BootPhase.running => BootPhase.running

/-! ## Theorems -/

/-- C5: after initGPIOwakeup returns, PB0 and PB1 are configured as
inputs with glitch filtering and armed for falling-edge (not rising-edge)
interrupts, ADXL_INT1 is configured as an input without glitch filtering
and armed for rising-edge (not falling-edge) interrupts, and both the
even- and odd-pin GPIO interrupt groups are unmasked at the NVIC. -/
theorem C5_initGPIOwakeup_config :
    pinModeAfter initGPIOwakeup PB0_PORT PB0_PIN = some GpioMode.inputPullFilter ∧
    pinModeAfter initGPIOwakeup PB1_PORT PB1_PIN = some GpioMode.inputPullFilter ∧
    pinModeAfter initGPIOwakeup ADXL_INT1_PORT ADXL_INT1_PIN = some GpioMode.input ∧
    intConfigAfter initGPIOwakeup PB0_PORT PB0_PIN = some (false, true, true) ∧
    intConfigAfter initGPIOwakeup PB1_PORT PB1_PIN = some (false, true, true) ∧
    intConfigAfter initGPIOwakeup ADXL_INT1_PORT ADXL_INT1_PIN =
      some (true, false, true) ∧
    GpioInitAct.nvicEnableEven ∈ initGPIOwakeup ∧
    GpioInitAct.nvicEnableOdd ∈ initGPIOwakeup := by
  decide

/-- C10: in initRTCcomp, the compare value is written, the compare
interrupt is enabled and the stale pending interrupt is cleared (then the
NVIC line enabled) strictly before RTC_Init initializes and starts the
counter, so no interval can elapse and no stale pending interrupt can be
delivered before the timer is fully configured. -/
theorem C10_initRTCcomp_order :
    initRTCcomp.indexOf (RtcAct.compareSet 0 1966080) <
      initRTCcomp.indexOf RtcAct.intEnableCOMP0 ∧
    initRTCcomp.indexOf RtcAct.intEnableCOMP0 <
      initRTCcomp.indexOf RtcAct.nvicClearPendingRTC ∧
    initRTCcomp.indexOf RtcAct.nvicClearPendingRTC <
      initRTCcomp.indexOf RtcAct.nvicEnableRTC ∧
    initRTCcomp.indexOf RtcAct.nvicEnableRTC <
      initRTCcomp.indexOf RtcAct.rtcInitStart ∧
    RtcAct.rtcInitStart ∈ initRTCcomp ∧
    initRTCcomp.getLast? = some RtcAct.rtcInitStart := by
  decide

/-- C6: the compare value equals intervalSeconds times clockFrequency
exactly. DELAY_RTC, LFXOFREQ and their product are all exactly
representable in binary64, so any correct rounding of the constant
expression 60.0 * 32768 returns exactly 1966080; that value fits in the
32-bit compare register, and initRTCcomp writes exactly it to RTC compare
register 0. -/
theorem C6_compare_value_exact (rnd : ℚ → ℚ)
    (hrnd : ∀ q, Float64Representable q → rnd q = q) :
    Float64Representable DELAY_RTC ∧
    Float64Representable LFXOFREQ ∧
    rnd COMPARE_RTC = 1966080 ∧
    (1966080 : ℕ) < 2 ^ 32 ∧
    RtcAct.compareSet 0 1966080 ∈ initRTCcomp := by
  refine ⟨⟨60, 0, by norm_num, by norm_num [DELAY_RTC]⟩,
          ⟨32768, 0, by norm_num, by norm_num [LFXOFREQ]⟩, ?_, by norm_num,
          by decide⟩
  rw [hrnd COMPARE_RTC
    ⟨1966080, 0, by norm_num, by norm_num [COMPARE_RTC, DELAY_RTC, LFXOFREQ]⟩]
  norm_num [COMPARE_RTC, DELAY_RTC, LFXOFREQ]

/-- Witness for C6 at the identity rounding function, which is trivially
the identity on representable values. -/
theorem C6_compare_value_exact_witness :
    (fun q : ℚ => q) COMPARE_RTC = 1966080 :=
  (C6_compare_value_exact (fun q => q) (fun _ _ => rfl)).2.2.1

/-- C8: if SysTick_Config returns nonzero at boot, main enters the
while(1) busy-wait and stays there forever: after any positive number of
steps the program is in the halted state, and the running state (the rest
of initialization and the main loop) is never reached. -/
theorem C8_systick_failure_halts (r : Nat) (hr : r ≠ 0) (n : Nat) :
    (bootStep r)^[n + 1] BootPhase.start = BootPhase.halted ∧
    (bootStep r)^[n] BootPhase.start ≠ BootPhase.running := by
  have hstart : bootStep r BootPhase.start = BootPhase.halted := by
    simp [bootStep, hr]
  have hfix : ∀ m, (bootStep r)^[m] BootPhase.halted = BootPhase.halted :=
    fun m => Function.iterate_fixed rfl m
  refine ⟨by rw [Function.iterate_succ_apply, hstart]; exact hfix n, ?_⟩
  cases n with
  | zero => simp
  | succ k =>
      rw [Function.iterate_succ_apply, hstart, hfix]
      simp

/-- Witness for C8 at the failure return value 1 and one step. -/
theorem C8_systick_failure_halts_witness :
    (bootStep 1)^[1] BootPhase.start = BootPhase.halted :=
  (C8_systick_failure_halts 1 (by decide) 0).1

/-- C7: in the boot sequence (with or without DEBUGGING), the sensor soft
reset precedes every configuration register access and the
measurement-enable write; the range, output-data-rate and
activity-threshold writes all happen while measurement is disabled
(whatever the power-on measurement state was, since the reset precedes
them); and measureADXL(true) is the last sensor operation before the main
loop, with no sensor register operation after it. -/
theorem C7_boot_sensor_order (dbg : Bool) :
    ((bootTrace dbg).indexOf BootAct.resetHandlerADXL <
      (bootTrace dbg).indexOf (BootAct.configADXL_range 1) ∧
     (bootTrace dbg).indexOf (BootAct.configADXL_range 1) <
      (bootTrace dbg).indexOf (BootAct.configADXL_ODR 0) ∧
     (bootTrace dbg).indexOf (BootAct.configADXL_ODR 0) <
      (bootTrace dbg).indexOf (BootAct.configADXL_activity 3) ∧
     (bootTrace dbg).indexOf (BootAct.configADXL_activity 3) <
      (bootTrace dbg).indexOf (BootAct.measureADXL true)) ∧
    (standbyOk true (bootTrace dbg) = true ∧
     standbyOk false (bootTrace dbg) = true) ∧
    BootAct.measureADXL true ∈ bootTrace dbg ∧
    ((bootTrace dbg).drop
        ((bootTrace dbg).indexOf (BootAct.measureADXL true) + 1)).all
      (fun a => !isSensorRegOp a) = true := by
  cases dbg <;> decide

/-- C1: in every pass of the main loop in the Active state, under every
interrupt interleaving: the liveness indication (LED0 on, Delay 1000,
LED0 off) comes first, immediately followed by the Event Flag test;
exactly one ADXL read — of the status register — is issued precisely when
the tested flag was set, and in that case the read precedes the flag
clear, which precedes the deep-sleep entry; when the tested flag was
clear, no ADXL read occurs in that pass. -/
theorem C1_active_tick_acknowledge (dbg t0 : Bool) (o : Nat → Bool) :
    ((activePhase dbg o t0).trace.take 4 =
      [LoopAct.led0 true, LoopAct.delayMs 1000, LoopAct.led0 false,
       LoopAct.checkFlag (activePhase dbg o t0).flagAtCheck]) ∧
    ((activePhase dbg o t0).trace.countP isReadADXL =
      if (activePhase dbg o t0).flagAtCheck then 1 else 0) ∧
    (if (activePhase dbg o t0).flagAtCheck then
        LoopAct.readADXL ADXL_REG_STATUS ∈ (activePhase dbg o t0).trace ∧
        (activePhase dbg o t0).trace.indexOf
            (LoopAct.readADXL ADXL_REG_STATUS) <
          (activePhase dbg o t0).trace.indexOf LoopAct.clearTriggered ∧
        (activePhase dbg o t0).trace.indexOf LoopAct.clearTriggered <
          (activePhase dbg o t0).trace.indexOf LoopAct.emuEnterEM2
      else
        (activePhase dbg o t0).trace.countP isReadADXL = 0 ∧
        LoopAct.clearTriggered ∉ (activePhase dbg o t0).trace) := by
  cases dbg <;> cases h : (t0 || o 0 || o 1 || o 2 || o 3) <;>
    simp [activePhase, h] <;> decide

/-- C2: every Active-to-Sleeping transition executes, in this order and
with nothing in between, systickInterrupts(false),
enableSPIpinsADXL(false), EMU_EnterEM2; every return from sleep executes
enableSPIpinsADXL(true) then systickInterrupts(true); these five
statements are exactly the tail of each iteration trace (shown reversed),
every iteration begins with the liveness tick (LED0 on), and the loop
continues with the next iteration right after the wake re-enable. -/
theorem C2_sleep_wake_transitions (dbg t0 t : Bool) (o : Nat → Bool)
    (O : Nat → Nat → Bool) (n : Nat) :
    ((loopIter dbg o t0).1.reverse.take 5 =
      [LoopAct.systickInterrupts true, LoopAct.enableSPIpinsADXL true,
       LoopAct.emuEnterEM2, LoopAct.enableSPIpinsADXL false,
       LoopAct.systickInterrupts false]) ∧
    ((loopIter dbg o t0).1.head? = some (LoopAct.led0 true)) ∧
    (runLoop dbg O t (n + 1) =
      (loopIter dbg (O 0) t).1 ++ runLoop dbg (fun k => O (k + 1)) true n) := by
  refine ⟨?_, ?_, rfl⟩ <;>
    cases dbg <;> cases h : (t0 || o 0 || o 1 || o 2 || o 3) <;>
      simp [loopIter, activePhase, wakeTrace, h]

/-- C3 as stated is false on the code: with no event pending at the flag
test, a handler that fires at the boundary between the test and the
EMU_EnterEM2 call (here boundary 5, during the sleep preparation) leaves
the Event Flag set and not yet cleared at the moment deep sleep is
entered. -/
theorem C3_counterexample :
    (activePhase false (fun i => decide (i = 5)) false).flagAtCheck = false ∧
    (activePhase false (fun i => decide (i = 5)) false).flagAtEM2 = true ∧
    LoopAct.clearTriggered ∉
      (activePhase false (fun i => decide (i = 5)) false).trace ∧
    LoopAct.emuEnterEM2 ∈
      (activePhase false (fun i => decide (i = 5)) false).trace := by
  decide

/-- C3 (amended): a set that the state machine has observed is never
carried into sleep: when no handler fires at a boundary after the flag
test (indices 4 and up), the Event Flag is clear at the moment
EMU_EnterEM2 executes — any set that happened before the test was
acknowledged and cleared first. Only a set arriving after the test can
cross the sleep entry, and it is left set, not cleared (see the
counterexample). -/
theorem C3_no_observed_event_into_sleep (dbg t0 : Bool) (o : Nat → Bool)
    (h : ∀ i, 4 ≤ i → o i = false) :
    (activePhase dbg o t0).flagAtEM2 = false := by
  cases hc : (t0 || o 0 || o 1 || o 2 || o 3) <;>
    simp [activePhase, hc, h 4 (by decide), h 5 (by decide), h 6 (by decide),
      h 7 (by decide), h 8 (by decide), h 9 (by decide)]

/-- Witness for the amended C3 at the all-quiet oracle with the flag
initially set. -/
theorem C3_no_observed_event_into_sleep_witness :
    (activePhase false (fun _ => false) true).flagAtEM2 = false :=
  C3_no_observed_event_into_sleep false true (fun _ => false) (fun _ _ => rfl)

/-- Helper: a full loop iteration appended to any continuation preserves
the SPI-pins check started in the enabled state: the iteration reads the
ADXL only while the pins are enabled, and hands the pins back enabled. -/
theorem spiOkFrom_loopIter (dbg t0 : Bool) (o : Nat → Bool)
    (rest : List LoopAct) :
    spiOkFrom true ((loopIter dbg o t0).1 ++ rest) = spiOkFrom true rest := by
  cases dbg <;> cases h : (t0 || o 0 || o 1 || o 2 || o 3) <;>
    simp [loopIter, activePhase, wakeTrace, h, spiOkFrom]

/-- C4: over any number of main-loop iterations, under every interrupt
interleaving, starting with the SPI pins enabled (as initADXL_SPI leaves
them at boot), every ADXL register read happens while the SPI pins are
enabled: each read lies after the wake re-enable and before the next
pre-sleep disable. -/
theorem C4_no_read_while_spi_disabled (dbg t : Bool)
    (O : Nat → Nat → Bool) (n : Nat) :
    spiOkFrom true (runLoop dbg O t n) = true := by
  induction n generalizing O t with
  | zero => rfl
  | succ k ih =>
      rw [show runLoop dbg O t (k + 1) =
            (loopIter dbg (O 0) t).1 ++
              runLoop dbg (fun j => O (j + 1)) (loopIter dbg (O 0) t).2 k
          from rfl]
      rw [spiOkFrom_loopIter]
      exact ih _ _

/-- Helper: erasing the DEBUGGING-guarded statements from a loop pass
built with DEBUGGING defined yields exactly the pass built without it. -/
theorem filter_debug_activePhase (o : Nat → Bool) (t0 : Bool) :
    (activePhase true o t0).trace.filter (fun a => !isDebugAct a) =
      (activePhase false o t0).trace := by
  cases h : (t0 || o 0 || o 1 || o 2 || o 3) <;>
    simp [activePhase, h, isDebugAct]

/-- Helper: the same erasure for a full loop iteration. -/
theorem filter_debug_loopIter (o : Nat → Bool) (t0 : Bool) :
    (loopIter true o t0).1.filter (fun a => !isDebugAct a) =
      (loopIter false o t0).1 := by
  show ((activePhase true o t0).trace ++ wakeTrace).filter _ = _
  rw [List.filter_append, filter_debug_activePhase]
  rfl

/-- Helper: the same erasure for any number of loop iterations. -/
theorem filter_debug_runLoop (O : Nat → Nat → Bool) (t : Bool) (n : Nat) :
    (runLoop true O t n).filter (fun a => !isDebugAct a) =
      runLoop false O t n := by
  induction n generalizing O t with
  | zero => rfl
  | succ k ih =>
      show ((loopIter true (O 0) t).1 ++ _).filter _ = _
      rw [List.filter_append, filter_debug_loopIter, ih]
      rfl

/-- C9: with the DEBUGGING macro undefined the core behaves identically:
erasing the debug statements from the boot trace and from any number of
loop iterations built with DEBUGGING defined yields exactly the traces
built without it, and the Event Flag evolution (value at the test, value
at sleep entry) is the same in both builds, for every interrupt
interleaving. -/
theorem C9_debugging_erasure (o : Nat → Bool) (t0 t : Bool)
    (O : Nat → Nat → Bool) (n : Nat) :
    ((activePhase true o t0).trace.filter (fun a => !isDebugAct a) =
      (activePhase false o t0).trace) ∧
    (activePhase true o t0).flagAtCheck = (activePhase false o t0).flagAtCheck ∧
    (activePhase true o t0).flagAtEM2 = (activePhase false o t0).flagAtEM2 ∧
    ((bootTrace true).filter (fun a => !isDebugBoot a) = bootTrace false) ∧
    ((runLoop true O t n).filter (fun a => !isDebugAct a) =
      runLoop false O t n) := by
  refine ⟨filter_debug_activePhase o t0, ?_, ?_, by decide,
          filter_debug_runLoop O t n⟩ <;>
    cases h : (t0 || o 0 || o 1 || o 2 || o 3) <;> simp [activePhase, h]

end ADXL
